import Mathlib

/-!
Shallow embedding of the terraform-provider-sanity plugin (Go sources under
internal/provider): the provider core, the project resource, the CORS-origin
resource and the dataset resource, together with the Terraform framework
value types (types.String, types.Bool) and the go-sanity client surface the
provider calls.  Backend responses are supplied by an explicit `Client`
oracle: each field models the value/error pair the corresponding go-sanity
method returns (a `none` first component models a nil pointer result).
Every operation returns the diagnostics it accumulated, the ordered list of
backend calls it issued, the state it set (if any), and whether it hit a
nil-pointer dereference (a Go runtime panic).
-/

/-- Severity of a Terraform diagnostic (diag.Diagnostics entries). -/
inductive Severity where
  | error
  | warning
deriving Repr, DecidableEq

/-- One Terraform diagnostic: AddError / AddWarning produce (summary, detail). -/
structure Diag where
  severity : Severity
  summary : String
  detail : String
deriving Repr, DecidableEq

/-- resp.Diagnostics.AddError summary detail. -/
def Diag.err (s d : String) : Diag := ⟨Severity.error, s, d⟩

/-- resp.Diagnostics.AddWarning summary detail. -/
def Diag.warn (s d : String) : Diag := ⟨Severity.warning, s, d⟩

/-- Terraform framework types.String: Null / Unknown flags and the Value. -/
structure TString where
  Null : Bool := false
  Unknown : Bool := false
  Value : String := ""
deriving Repr, DecidableEq

/-- The Go composite literal types.String{Value: s} (Null and Unknown false). -/
def TString.val (s : String) : TString := { Value := s }

/-- A null types.String. -/
def TString.nullVal : TString := { Null := true }

/-- Terraform framework types.Bool. -/
structure TBool where
  Null : Bool := false
  Unknown : Bool := false
  Value : Bool := false
deriving Repr, DecidableEq

/-- The Go composite literal types.Bool{Value: b}. -/
def TBool.val (b : Bool) : TBool := { Value := b }

/-- A null types.Bool. -/
def TBool.nullVal : TBool := { Null := true }

/-- types.Bool.IsNull(). -/
def TBool.IsNull (b : TBool) : Bool := b.Null

/-- sanity.Project as used by the provider (Metadata is a string map read
with Go map-index semantics: a missing key yields the empty string). -/
structure Project where
  Id : String
  DisplayName : String
  OrganizationId : String
  StudioHost : String
  Metadata : List (String × String)
  IsDisabledByUser : Bool
  ActivityFeedEnabled : Bool
deriving Repr, DecidableEq

/-- Go map indexing project.Metadata[k]: zero value "" when the key is absent. -/
def Project.metaGet (p : Project) (k : String) : String :=
  match p.Metadata.find? (fun kv => kv.1 == k) with
  | some kv => kv.2
  | none => ""

/-- sanity.CORSEntry. -/
structure CORSEntry where
  Id : Int
  Origin : String
  AllowCredentials : Bool
deriving Repr, DecidableEq

/-- sanity.Dataset. -/
structure Dataset where
  Name : String
  AclMode : String
deriving Repr, DecidableEq

/-- sanity.CreateProjectRequest. -/
structure CreateProjectRequest where
  DisplayName : String
  OrganizationId : String
deriving Repr, DecidableEq

/-- sanity.UpdateProjectRequest: a field is `some v` when the Go code
assigned it (the zero request {} leaves every field unassigned); the
boolean fields are pointers built with sanity.NewBool. -/
structure UpdateProjectRequest where
  DisplayName : Option String := none
  StudioHost : Option String := none
  ExternalStudioHost : Option String := none
  Color : Option String := none
  IsDisabledByUser : Option Bool := none
  ActivityFeedEnabled : Option Bool := none
deriving Repr, DecidableEq

/-- sanity.CreateCORSEntryRequest (AllowCredentials is a *bool via NewBool). -/
structure CreateCORSEntryRequest where
  Origin : String
  AllowCredentials : Option Bool
deriving Repr, DecidableEq

/-- sanity.CreateDatasetRequest. -/
structure CreateDatasetRequest where
  Name : String
  AclMode : String
deriving Repr, DecidableEq

/-- One backend-service API call issued through the go-sanity client,
recorded with its arguments. -/
inductive Call where
  | createProject (req : CreateProjectRequest)
  | getProject (projectId : String)
  | updateProject (projectId : String) (req : UpdateProjectRequest)
  | deleteProject (projectId : String)
  | listCORSEntries (projectId : String)
  | createCORSEntry (projectId : String) (req : CreateCORSEntryRequest)
  | deleteCORSEntry (projectId : String) (entryId : Int)
  | listDatasets (projectId : String)
  | createDataset (projectId : String) (req : CreateDatasetRequest)
  | deleteDataset (projectId : String) (name : String)
deriving Repr, DecidableEq

/-- Oracle for the go-sanity client: each field gives the (value, error)
pair the corresponding Projects.* method returns.  A `none` value paired
with a nil error models a nil pointer returned without error; slices are
never nil-dereferenced in the provider so list results carry no option. -/
structure Client where
  createProject : CreateProjectRequest → Option Project × Option String
  getProject : String → Option Project × Option String
  updateProject : String → UpdateProjectRequest → Option Project × Option String
  deleteProject : String → Option String
  listCORSEntries : String → List CORSEntry × Option String
  createCORSEntry : String → CreateCORSEntryRequest → Option CORSEntry × Option String
  deleteCORSEntry : String → Int → Option String
  listDatasets : String → List Dataset × Option String
  createDataset : String → CreateDatasetRequest → Option Dataset × Option String
  deleteDataset : String → String → Option String

/-- Result of one resource operation: the diagnostics added to the
response, the backend calls issued in order, the state written by
resp.State.Set (none when the operation returned before setting state),
and whether execution hit a nil-pointer dereference (Go panic). -/
structure OpOut (M : Type) where
  diags : List Diag
  calls : List Call
  state : Option M
  panicked : Bool := false
deriving Repr, DecidableEq

/-! ### fmt.Sprintf("%d", ·) and fmt.Sscanf(·, "%d", ·) on integers -/

/-- ASCII decimal digit test. -/
def isDigitChar (c : Char) : Bool := 48 ≤ c.toNat && c.toNat ≤ 57

/-- Numeric value of an ASCII digit. -/
def digitVal (c : Char) : Nat := c.toNat - 48

/-- ASCII digit character for a value below 10. -/
def digitChar (d : Nat) : Char := Char.ofNat (48 + d)

/-- Decimal digit characters of a natural number, most significant first
(fmt prints 0 as "0"). -/
def natDecChars (n : Nat) : List Char :=
  if n = 0 then [Char.ofNat 48] else ((Nat.digits 10 n).map digitChar).reverse

/-- fmt.Sprintf("%d", n) for an int64 value n. -/
def sprintfD (n : Int) : String :=
  if n < 0 then ⟨Char.ofNat 45 :: natDecChars n.natAbs⟩ else ⟨natDecChars n.toNat⟩

/-- Accumulate the value of the leading run of decimal digits, most
significant first, stopping at the first non-digit. -/
def takeDigitsVal : List Char → Nat → Nat
  | [], acc => acc
  | c :: cs, acc => if isDigitChar c then takeDigitsVal cs (acc * 10 + digitVal c) else acc

/-- Scan an optionally signed decimal integer from the head of a
character list: an optional sign followed by at least one digit; the
digit run stops at the first non-digit and trailing text is ignored. -/
def sscanfDChars : List Char → Option Int
  | [] => none
  | c :: r =>
    if c == Char.ofNat 45 then
      match r with
      | d :: _ => if isDigitChar d then some (-(takeDigitsVal r 0 : Int)) else none
      | [] => none
    else if c == Char.ofNat 43 then
      match r with
      | d :: _ => if isDigitChar d then some ((takeDigitsVal r 0 : Nat) : Int) else none
      | [] => none
    else if isDigitChar c then some ((takeDigitsVal (c :: r) 0 : Nat) : Int)
    else none

/-- fmt.Sscanf(s, "%d", &x) for an integer x: skip leading whitespace,
read an optional sign, then at least one decimal digit (scanning stops at
the first non-digit, and trailing text is ignored because the format
string is exhausted); the scan errors when no digit is found.  Returns
the scanned integer, or `none` for a scan error. -/
def sscanfD (s : String) : Option Int :=
  sscanfDChars (s.data.dropWhile
    (fun c => c == Char.ofNat 32 || c == Char.ofNat 9 || c == Char.ofNat 10))

/-- Diagnostic detail used for a fmt.Sscanf scan error (the Go text is
produced inside the fmt package; only its occurrence matters here). -/
def sscanfErrText : String := "expected integer"

/-! ### Resource and provider data models -/

/-- ProjectResourceModel. -/
structure ProjectResourceModel where
  Id : TString
  Name : TString
  Organization : TString
  StudioHost : TString
  ExternalStudioHost : TString
  Color : TString
  IsDisabledByUser : TBool
  ActivityFeedEnabled : TBool
deriving Repr, DecidableEq

/-- CORSOriginResourceModel. -/
structure CORSOriginResourceModel where
  Id : TString
  Origin : TString
  AllowCredentials : TBool
  Project : TString
deriving Repr, DecidableEq

/-- DatasetResourceModel. -/
structure DatasetResourceModel where
  Project : TString
  Name : TString
  AclMode : TString
deriving Repr, DecidableEq

/-- SanityProviderModel. -/
structure SanityProviderModel where
  Token : TString
deriving Repr, DecidableEq

/-- The sanity.Client the provider builds, identified by the bearer token
its HTTP transport wraps. -/
structure BuiltClient where
  token : String
deriving Repr, DecidableEq

/-- Result of SanityProvider.Configure: diagnostics plus the client handle
published as resp.DataSourceData and resp.ResourceData. -/
structure ConfigureOut where
  diags : List Diag
  DataSourceData : Option BuiltClient
  ResourceData : Option BuiltClient
deriving Repr, DecidableEq

/-- Result of an ImportState operation: diagnostics plus the attribute
paths set by ImportStatePassthroughID, as (path, value) pairs in order. -/
structure ImportOut where
  diags : List Diag
  attrs : List (String × String)
deriving Repr, DecidableEq

/-! ### Provider core -/

/-- SanityProvider.Configure: given the parsed configuration model and the
value of the SANITY_TOKEN environment variable (os.Getenv returns "" when
unset).  An unknown token warns and publishes nothing; a null token falls
back to the environment; an empty resolved token is a fatal error;
otherwise the sanity client wrapping the resolved token is published as
both DataSourceData and ResourceData. -/
def SanityProvider.Configure (config : SanityProviderModel) (envToken : String) : ConfigureOut :=
  if config.Token.Unknown then
    { diags := [Diag.warn "Unable to create client" "Cannot use unknown value as token"],
      DataSourceData := none, ResourceData := none }
  else
    let token := if config.Token.Null then envToken else config.Token.Value
    if token = "" then
      { diags := [Diag.err "Unable to find token" "Token cannot be an empty string"],
        DataSourceData := none, ResourceData := none }
    else
      { diags := [], DataSourceData := some ⟨token⟩, ResourceData := some ⟨token⟩ }

/-! ### Project resource -/

/-- The write-back of a sanity.Project into the resource model shared by
Create, Read and Update (the externalStudioHost and color attributes come
out of the generic metadata map). -/
def ProjectResourceModel.fromProject (data : ProjectResourceModel) (project : Project) : ProjectResourceModel :=
  { data with
    Id := TString.val project.Id
    Name := TString.val project.DisplayName
    Organization := TString.val project.OrganizationId
    StudioHost := TString.val project.StudioHost
    ExternalStudioHost := TString.val (project.metaGet "externalStudioHost")
    Color := TString.val (project.metaGet "color")
    IsDisabledByUser := TBool.val project.IsDisabledByUser
    ActivityFeedEnabled := TBool.val project.ActivityFeedEnabled }

/-- The purge loop in ProjectResource.Create: delete the listed CORS
entries in order, stopping at the first delete error.  Returns the
DeleteCORSEntry calls issued and the first error, if any. -/
def purgeCORSEntries (c : Client) (projectId : String) : List CORSEntry → List Call × Option String
  | [] => ([], none)
  | entry :: rest =>
    match c.deleteCORSEntry projectId entry.Id with
    | some e => ([Call.deleteCORSEntry projectId entry.Id], some e)
    | none =>
      let r := purgeCORSEntries c projectId rest
      (Call.deleteCORSEntry projectId entry.Id :: r.1, r.2)

/-- The follow-up UpdateProjectRequest built inside ProjectResource.Create:
each optional attribute is assigned exactly when its planned value is
non-null (the display name is not touched there). -/
def createUpdateReq (data : ProjectResourceModel) : UpdateProjectRequest :=
  { StudioHost := if !data.StudioHost.Null then some data.StudioHost.Value else none
    ExternalStudioHost := if !data.ExternalStudioHost.Null then some data.ExternalStudioHost.Value else none
    Color := if !data.Color.Null then some data.Color.Value else none
    IsDisabledByUser := if !data.IsDisabledByUser.Null then some data.IsDisabledByUser.Value else none
    ActivityFeedEnabled := if !data.ActivityFeedEnabled.Null then some data.ActivityFeedEnabled.Value else none }

/-- ProjectResource.Create, with the backend responses supplied by the
client oracle and the plan already parsed into the model.  After a
successful backend create it lists the new project's CORS entries (a list
failure is reported without any compensation), deletes each entry (a
delete failure adds the error and issues a compensating project delete),
then issues the conditional follow-up update; a failed follow-up update
dereferences the project value that failed call returned. -/
def ProjectResource.Create (c : Client) (data : ProjectResourceModel) : OpOut ProjectResourceModel :=
  let createReq : CreateProjectRequest :=
    { DisplayName := data.Name.Value, OrganizationId := data.Organization.Value }
  match c.createProject createReq with
  | (_, some e) =>
      { diags := [Diag.err "Client Error" e], calls := [Call.createProject createReq], state := none }
  | (none, none) =>
      { diags := [], calls := [Call.createProject createReq], state := none, panicked := true }
  | (some project, none) =>
    let calls1 := [Call.createProject createReq, Call.listCORSEntries project.Id]
    match c.listCORSEntries project.Id with
    | (_, some e) =>
        { diags := [Diag.err "Client Error" e], calls := calls1, state := none }
    | (entries, none) =>
      let purge := purgeCORSEntries c project.Id entries
      let calls2 := calls1 ++ purge.1
      match purge.2 with
      | some e =>
          { diags := [Diag.err "Client Error" e],
            calls := calls2 ++ [Call.deleteProject project.Id], state := none }
      | none =>
        let requiresUpdate := !data.StudioHost.Null || !data.ExternalStudioHost.Null ||
          !data.Color.Null || !data.IsDisabledByUser.Null || !data.ActivityFeedEnabled.Null
        if requiresUpdate then
          let updateReq := createUpdateReq data
          let calls3 := calls2 ++ [Call.updateProject project.Id updateReq]
          match c.updateProject project.Id updateReq with
          | (some p2, some e) =>
              { diags := [Diag.err "Client Error" e],
                calls := calls3 ++ [Call.deleteProject p2.Id], state := none }
          | (none, some e) =>
              { diags := [Diag.err "Client Error" e], calls := calls3, state := none, panicked := true }
          | (some p2, none) =>
              { diags := [], calls := calls3, state := some (data.fromProject p2) }
          | (none, none) =>
              { diags := [], calls := calls3, state := none, panicked := true }
        else
          { diags := [], calls := calls2, state := some (data.fromProject project) }

/-- ProjectResource.Read. -/
def ProjectResource.Read (c : Client) (data : ProjectResourceModel) : OpOut ProjectResourceModel :=
  if data.Id.Null then
    { diags := [Diag.err "Project id is null" "Project id is null"], calls := [], state := none }
  else
    match c.getProject data.Id.Value with
    | (_, some e) =>
        { diags := [Diag.err "Client Error" e], calls := [Call.getProject data.Id.Value], state := none }
    | (some project, none) =>
        { diags := [], calls := [Call.getProject data.Id.Value], state := some (data.fromProject project) }
    | (none, none) =>
        { diags := [], calls := [Call.getProject data.Id.Value], state := none, panicked := true }

/-- The UpdateProjectRequest built inside ProjectResource.Update, where
`studioHost` is the prior-state studio_host attribute the code reads into
a plain string (a null prior value leaves it ""): the studio-host field is
assigned only when that prior string is empty and the plan's value is
non-null. -/
def updateUpdateReq (data : ProjectResourceModel) (studioHost : String) : UpdateProjectRequest :=
  { DisplayName := if !data.Name.Null then some data.Name.Value else none
    StudioHost := if studioHost == "" && !data.StudioHost.Null then some data.StudioHost.Value else none
    ExternalStudioHost := if !data.ExternalStudioHost.Null then some data.ExternalStudioHost.Value else none
    Color := if !data.Color.Null then some data.Color.Value else none
    IsDisabledByUser := if !data.IsDisabledByUser.Null then some data.IsDisabledByUser.Value else none
    ActivityFeedEnabled := if !data.ActivityFeedEnabled.Null then some data.ActivityFeedEnabled.Value else none }

/-- ProjectResource.Update, with `studioHost` the prior-state studio_host
string.  On a failed backend update the code adds the error and issues a
compensating delete using the project value returned by the failed call
itself; when that value is nil the dereference is a runtime panic. -/
def ProjectResource.Update (c : Client) (data : ProjectResourceModel) (studioHost : String) : OpOut ProjectResourceModel :=
  if data.Id.Null then
    { diags := [Diag.err "Project id is null" "Project id is null"], calls := [], state := none }
  else
    let requiresUpdate := !data.Name.Null || (!data.StudioHost.Null && studioHost == "") ||
      !data.ExternalStudioHost.Null || !data.Color.Null ||
      !data.IsDisabledByUser.Null || !data.ActivityFeedEnabled.Null
    if !requiresUpdate then
      { diags := [], calls := [], state := none }
    else
      let updateReq := updateUpdateReq data studioHost
      match c.updateProject data.Id.Value updateReq with
      | (some project, some e) =>
          { diags := [Diag.err "Client Error" e],
            calls := [Call.updateProject data.Id.Value updateReq, Call.deleteProject project.Id],
            state := none }
      | (none, some e) =>
          { diags := [Diag.err "Client Error" e],
            calls := [Call.updateProject data.Id.Value updateReq], state := none, panicked := true }
      | (some project, none) =>
          { diags := [], calls := [Call.updateProject data.Id.Value updateReq],
            state := some (data.fromProject project) }
      | (none, none) =>
          { diags := [], calls := [Call.updateProject data.Id.Value updateReq],
            state := none, panicked := true }

/-- ProjectResource.Delete. -/
def ProjectResource.Delete (c : Client) (data : ProjectResourceModel) : OpOut ProjectResourceModel :=
  if data.Id.Null then
    { diags := [Diag.err "Project id is null" "Project id is null"], calls := [], state := none }
  else
    match c.deleteProject data.Id.Value with
    | some e =>
        { diags := [Diag.err "Client Error"
            ("project " ++ data.Id.Value ++ " could not be deleted, got error: " ++ e)],
          calls := [Call.deleteProject data.Id.Value], state := none }
    | none => { diags := [], calls := [Call.deleteProject data.Id.Value], state := none }

/-! ### CORS origin resource -/

/-- The CreateCORSEntryRequest built by CORSOriginResource.Create:
allow-credentials starts as NewBool(true) and is overwritten with the
planned value when that value is non-null. -/
def corsCreateReq (data : CORSOriginResourceModel) : CreateCORSEntryRequest :=
  { Origin := data.Origin.Value
    AllowCredentials := if !data.AllowCredentials.IsNull then some data.AllowCredentials.Value else some true }

/-- CORSOriginResource.Create: the server-assigned integer entry id is
rendered to state with fmt.Sprintf("%d", entry.Id). -/
def CORSOriginResource.Create (c : Client) (data : CORSOriginResourceModel) : OpOut CORSOriginResourceModel :=
  let corsReq := corsCreateReq data
  match c.createCORSEntry data.Project.Value corsReq with
  | (_, some e) =>
      { diags := [Diag.err "Client Error" e],
        calls := [Call.createCORSEntry data.Project.Value corsReq], state := none }
  | (some entry, none) =>
      { diags := [], calls := [Call.createCORSEntry data.Project.Value corsReq],
        state := some { data with
          Id := TString.val (sprintfD entry.Id)
          AllowCredentials := TBool.val entry.AllowCredentials } }
  | (none, none) =>
      { diags := [], calls := [Call.createCORSEntry data.Project.Value corsReq],
        state := none, panicked := true }

/-- CORSOriginResource.Read: null checks, list the project's entries,
scan the stored id back to an integer, then linearly find the first entry
with that id; a missing entry is a fatal "cors entry not found" error. -/
def CORSOriginResource.Read (c : Client) (data : CORSOriginResourceModel) : OpOut CORSOriginResourceModel :=
  if data.Id.Null then
    { diags := [Diag.err "Entry id is null" "Entry id is null"], calls := [], state := none }
  else if data.Project.Null then
    { diags := [Diag.err "Project is null" "Project is null"], calls := [], state := none }
  else
    match c.listCORSEntries data.Project.Value with
    | (_, some e) =>
        { diags := [Diag.err "Client Error" e],
          calls := [Call.listCORSEntries data.Project.Value], state := none }
    | (entries, none) =>
      match sscanfD data.Id.Value with
      | none =>
          { diags := [Diag.err "Client Error" sscanfErrText],
            calls := [Call.listCORSEntries data.Project.Value], state := none }
      | some rawId =>
        match entries.find? (fun en => en.Id == rawId) with
        | some entry =>
            { diags := [], calls := [Call.listCORSEntries data.Project.Value],
              state := some { data with
                AllowCredentials := TBool.val entry.AllowCredentials
                Origin := TString.val entry.Origin } }
        | none =>
            { diags := [Diag.err "cors entry not found" "cors entry not found"],
              calls := [Call.listCORSEntries data.Project.Value], state := none }

/-- CORSOriginResource.Update: unconditionally rejected. -/
def CORSOriginResource.Update (_plan : CORSOriginResourceModel) : OpOut CORSOriginResourceModel :=
  { diags := [Diag.err "Provider Error" "Update is not supported on CORS entry"],
    calls := [], state := none }

/-- CORSOriginResource.Delete. -/
def CORSOriginResource.Delete (c : Client) (data : CORSOriginResourceModel) : OpOut CORSOriginResourceModel :=
  if data.Id.Null then
    { diags := [Diag.err "Entry id is null" "Entry id is null"], calls := [], state := none }
  else if data.Project.Null then
    { diags := [Diag.err "Project is null" "Project is null"], calls := [], state := none }
  else
    match sscanfD data.Id.Value with
    | none => { diags := [Diag.err "Client Error" sscanfErrText], calls := [], state := none }
    | some rawId =>
      match c.deleteCORSEntry data.Project.Value rawId with
      | some e =>
          { diags := [Diag.err "Client Error"
              ("entry " ++ data.Id.Value ++ " could not be deleted, got error: " ++ e)],
            calls := [Call.deleteCORSEntry data.Project.Value rawId], state := none }
      | none =>
          { diags := [], calls := [Call.deleteCORSEntry data.Project.Value rawId], state := none }

/-! ### Dataset resource -/

/-- DatasetResource.Create: the backend response value is discarded; on
success the planned model is written to state verbatim. -/
def DatasetResource.Create (c : Client) (data : DatasetResourceModel) : OpOut DatasetResourceModel :=
  let req : CreateDatasetRequest := { Name := data.Name.Value, AclMode := data.AclMode.Value }
  match c.createDataset data.Project.Value req with
  | (_, some e) =>
      { diags := [Diag.err "Client Error" e],
        calls := [Call.createDataset data.Project.Value req], state := none }
  | (_, none) =>
      { diags := [], calls := [Call.createDataset data.Project.Value req], state := some data }

/-- DatasetResource.Read: no null check on the stored identifiers; lists
the datasets of the stored project value and scans for the stored name. -/
def DatasetResource.Read (c : Client) (data : DatasetResourceModel) : OpOut DatasetResourceModel :=
  let projectId := data.Project.Value
  match c.listDatasets projectId with
  | (_, some e) =>
      { diags := [Diag.err "Client Error" e], calls := [Call.listDatasets projectId], state := none }
  | (datasets, none) =>
    match datasets.find? (fun d => d.Name == data.Name.Value) with
    | some dataset =>
        { diags := [], calls := [Call.listDatasets projectId],
          state := some { data with AclMode := TString.val dataset.AclMode } }
    | none =>
        { diags := [Diag.err "dataset not found" "dataset not found"],
          calls := [Call.listDatasets projectId], state := none }

/-- DatasetResource.Update: unconditionally rejected. -/
def DatasetResource.Update (_plan : DatasetResourceModel) : OpOut DatasetResourceModel :=
  { diags := [Diag.err "Provider Error" "Update is not supported on dataset"],
    calls := [], state := none }

/-- DatasetResource.Delete. -/
def DatasetResource.Delete (c : Client) (data : DatasetResourceModel) : OpOut DatasetResourceModel :=
  if data.Name.Null then
    { diags := [Diag.err "Name is null" "Name is null"], calls := [], state := none }
  else if data.Project.Null then
    { diags := [Diag.err "Project is null" "Project is null"], calls := [], state := none }
  else
    match c.deleteDataset data.Project.Value data.Name.Value with
    | some e =>
        { diags := [Diag.err "Client Error"
            ("dataset " ++ data.Name.Value ++ " could not be deleted, got error: " ++ e)],
          calls := [Call.deleteDataset data.Project.Value data.Name.Value], state := none }
    | none =>
        { diags := [], calls := [Call.deleteDataset data.Project.Value data.Name.Value], state := none }

/-- Go strings.Split(s, "/") at the character level: split on every
slash, keeping empty parts ("" splits to [""]). -/
def splitSlash : List Char → List (List Char)
  | [] => [[]]
  | c :: cs =>
    match splitSlash cs with
    | [] => [[c]]
    | h :: t => if c == Char.ofNat 47 then [] :: h :: t else (c :: h) :: t

/-- The parts of a dataset import identifier: strings.Split(req.ID, "/"). -/
def importParts (id : String) : List String := (splitSlash id.data).map (fun l => ⟨l⟩)

/-- DatasetResource.ImportState: Go strings.Split on "/" must yield
exactly two parts; the first becomes the project attribute and the second
the name attribute. -/
def DatasetResource.ImportState (id : String) : ImportOut :=
  let parts := importParts id
  if parts.length != 2 then
    { diags := [Diag.err "Input Error"
        "The import identifier for a dataset should be in the form project-id/dataset-name"],
      attrs := [] }
  else
    { diags := [], attrs := [("project", parts.getD 0 ""), ("name", parts.getD 1 "")] }

/-! ### Concrete fixtures used by the closed instances -/

/-- A project as the backend create call reports it. -/
def proj1 : Project :=
  { Id := "p1", DisplayName := "My blog", OrganizationId := "org1", StudioHost := "",
    Metadata := [], IsDisabledByUser := false, ActivityFeedEnabled := true }

/-- First listed CORS entry. -/
def entry1 : CORSEntry := { Id := 1, Origin := "https://a", AllowCredentials := true }

/-- Second listed CORS entry. -/
def entry2 : CORSEntry := { Id := 2, Origin := "https://b", AllowCredentials := true }

/-- Base oracle: every pointer-returning call fails, every other call
returns its zero value. -/
def constClient : Client :=
  { createProject := fun _ => (none, some "backend unavailable")
    getProject := fun _ => (none, some "backend unavailable")
    updateProject := fun _ _ => (none, some "backend unavailable")
    deleteProject := fun _ => none
    listCORSEntries := fun _ => ([], none)
    createCORSEntry := fun _ _ => (none, some "backend unavailable")
    deleteCORSEntry := fun _ _ => none
    listDatasets := fun _ => ([], none)
    createDataset := fun _ _ => (none, some "backend unavailable")
    deleteDataset := fun _ _ => none }

/-- A project plan carrying only the required attributes. -/
def projPlanBase : ProjectResourceModel :=
  { Id := TString.nullVal, Name := TString.val "My blog", Organization := TString.val "org1",
    StudioHost := TString.nullVal, ExternalStudioHost := TString.nullVal,
    Color := TString.nullVal, IsDisabledByUser := TBool.nullVal,
    ActivityFeedEnabled := TBool.nullVal }

/-- A CORS origin plan. -/
def corsPlanBase : CORSOriginResourceModel :=
  { Id := TString.nullVal, Origin := TString.val "https://example.com",
    AllowCredentials := TBool.nullVal, Project := TString.val "p1" }

/-- A dataset plan. -/
def dsPlanBase : DatasetResourceModel :=
  { Project := TString.val "proj123", Name := TString.val "production",
    AclMode := TString.val "public" }

/-- Project create succeeds, CORS listing fails. -/
def listFailClient : Client := { constClient with
  createProject := fun _ => (some proj1, none)
  listCORSEntries := fun _ => ([], some "list failed") }

/-- Project create and CORS listing succeed, per-entry delete fails. -/
def purgeFailClient : Client := { constClient with
  createProject := fun _ => (some proj1, none)
  listCORSEntries := fun _ => ([entry1], none)
  deleteCORSEntry := fun _ _ => some "entry delete failed" }

/-- Backend project update fails reporting no project object. -/
def updateFailClient : Client := { constClient with
  updateProject := fun _ _ => (none, some "update failed") }

/-- CORS listing returns two entries with ids 1 and 2. -/
def corsListClient : Client := { constClient with
  listCORSEntries := fun _ => ([entry1, entry2], none) }

/-- CORS entry create succeeds with a server-assigned integer id. -/
def corsCreateClient : Client := { constClient with
  createCORSEntry := fun _ _ =>
    (some { Id := 123456789, Origin := "https://example.com", AllowCredentials := true }, none) }

/-- Dataset listing returns one dataset named production. -/
def datasetListClient : Client := { constClient with
  listDatasets := fun _ => ([{ Name := "production", AclMode := "public" }], none) }

/-- Dataset create succeeds and reports a dataset object. -/
def datasetCreateClient : Client := { constClient with
  createDataset := fun _ _ => (some { Name := "production", AclMode := "private" }, none) }

/-- A project plan whose id is known (update path). -/
def projUpdatePlan : ProjectResourceModel := { projPlanBase with Id := TString.val "p1" }

/-- A project plan with known id that only sets the studio host. -/
def projStudioPlan : ProjectResourceModel :=
  { Id := TString.val "p1", Name := TString.nullVal, Organization := TString.nullVal,
    StudioHost := TString.val "my-cool-blog", ExternalStudioHost := TString.nullVal,
    Color := TString.nullVal, IsDisabledByUser := TBool.nullVal,
    ActivityFeedEnabled := TBool.nullVal }

/-- Stored CORS state with id "2". -/
def corsState2 : CORSOriginResourceModel :=
  { corsPlanBase with Id := TString.val "2", AllowCredentials := TBool.val true }

/-- Stored CORS state with id "99". -/
def corsState99 : CORSOriginResourceModel :=
  { corsPlanBase with Id := TString.val "99", AllowCredentials := TBool.val true }

/-- Stored dataset state whose project is null. -/
def dsNullProject : DatasetResourceModel := { dsPlanBase with Project := TString.nullVal }

/-- A project state with every attribute null. -/
def projNullModel : ProjectResourceModel :=
  { Id := TString.nullVal, Name := TString.nullVal, Organization := TString.nullVal,
    StudioHost := TString.nullVal, ExternalStudioHost := TString.nullVal,
    Color := TString.nullVal, IsDisabledByUser := TBool.nullVal,
    ActivityFeedEnabled := TBool.nullVal }

/-- A CORS state with every attribute null. -/
def corsNullModel : CORSOriginResourceModel :=
  { Id := TString.nullVal, Origin := TString.nullVal,
    AllowCredentials := TBool.nullVal, Project := TString.nullVal }

/-- A dataset state with every attribute null. -/
def dsNullModel : DatasetResourceModel :=
  { Project := TString.nullVal, Name := TString.nullVal, AclMode := TString.nullVal }

/-- Provider configuration whose token attribute is unknown. -/
def unknownTokenConfig : SanityProviderModel := { Token := { Unknown := true } }

/-- Provider configuration whose token attribute is null. -/
def nullTokenConfig : SanityProviderModel := { Token := TString.nullVal }

/-! ### Decimal rendering / scanning round trip -/

theorem digitVal_digitChar {d : Nat} (h : d < 10) : digitVal (digitChar d) = d := by
  interval_cases d <;> decide

theorem isDigitChar_digitChar {d : Nat} (h : d < 10) : isDigitChar (digitChar d) = true := by
  interval_cases d <;> decide

theorem takeDigitsVal_eq_foldl :
    ∀ (L : List Char) (acc : Nat), (∀ c ∈ L, isDigitChar c = true) →
      takeDigitsVal L acc = L.foldl (fun a c => a * 10 + digitVal c) acc := by
  intro L
  induction L with
  | nil => intro acc _; rfl
  | cons c cs ih =>
    intro acc h
    have hc : isDigitChar c = true := h c (List.mem_cons_self c cs)
    simp only [takeDigitsVal, hc, if_true, List.foldl_cons]
    exact ih _ (fun x hx => h x (List.mem_cons_of_mem c hx))

theorem foldl_reverse_digits (m : Nat) :
    ∀ acc : Nat,
      ((Nat.digits 10 m).reverse).foldl (fun a d => a * 10 + d) acc =
        acc * 10 ^ (Nat.digits 10 m).length + m := by
  induction m using Nat.strong_induction_on with
  | _ m ih =>
    intro acc
    by_cases hm : m = 0
    · subst hm; simp
    · rw [Nat.digits_def' (by norm_num : (1:ℕ) < 10) (Nat.pos_of_ne_zero hm)]
      have hlt : m / 10 < m := Nat.div_lt_self (Nat.pos_of_ne_zero hm) (by norm_num)
      simp only [List.reverse_cons, List.foldl_append, List.foldl_cons, List.foldl_nil,
        List.length_cons]
      rw [ih (m / 10) hlt acc]
      have hdm : 10 * (m / 10) + m % 10 = m := Nat.div_add_mod m 10
      ring_nf
      omega

theorem natDecChars_all_digits (m : Nat) : ∀ c ∈ natDecChars m, isDigitChar c = true := by
  intro c hc
  by_cases hm : m = 0
  · subst hm
    simp only [natDecChars, if_true, List.mem_singleton] at hc
    subst hc; decide
  · simp only [natDecChars, hm, if_false, List.mem_reverse, List.mem_map] at hc
    obtain ⟨d, hd, rfl⟩ := hc
    exact isDigitChar_digitChar (Nat.digits_lt_base (by norm_num) hd)

theorem natDecChars_ne_nil (m : Nat) : natDecChars m ≠ [] := by
  by_cases hm : m = 0
  · subst hm; decide
  · simp only [natDecChars, hm, if_false, ne_eq, List.reverse_eq_nil_iff, List.map_eq_nil_iff]
    exact Nat.digits_ne_nil_iff_ne_zero.mpr hm

theorem takeDigitsVal_natDecChars (m : Nat) : takeDigitsVal (natDecChars m) 0 = m := by
  by_cases hm : m = 0
  · subst hm; decide
  · rw [takeDigitsVal_eq_foldl _ _ (natDecChars_all_digits m)]
    simp only [natDecChars, hm, if_false]
    rw [← List.map_reverse, List.foldl_map]
    have hcong :
        ((Nat.digits 10 m).reverse).foldl (fun a d => a * 10 + digitVal (digitChar d)) 0 =
          ((Nat.digits 10 m).reverse).foldl (fun a d => a * 10 + d) 0 := by
      apply List.foldl_ext
      intro a d hd
      rw [digitVal_digitChar (Nat.digits_lt_base (by norm_num) (List.mem_reverse.mp hd))]
    rw [hcong, foldl_reverse_digits m 0]
    simp

theorem isDigitChar_not_space {c : Char} (h : isDigitChar c = true) :
    (c == Char.ofNat 32 || c == Char.ofNat 9 || c == Char.ofNat 10) = false := by
  simp only [isDigitChar, Bool.and_eq_true, decide_eq_true_eq] at h
  simp only [Bool.or_eq_false_iff, beq_eq_false_iff_ne, ne_eq]
  refine ⟨⟨?_, ?_⟩, ?_⟩ <;> intro hc <;> subst hc <;> revert h <;> decide

theorem isDigitChar_not_sign {c : Char} (h : isDigitChar c = true) :
    (c == Char.ofNat 45) = false ∧ (c == Char.ofNat 43) = false := by
  simp only [isDigitChar, Bool.and_eq_true, decide_eq_true_eq] at h
  constructor <;> simp only [beq_eq_false_iff_ne, ne_eq] <;>
    intro hc <;> subst hc <;> revert h <;> decide

/-- The rendering of a natural scans back to the same natural: the
unsigned core of the round trip. -/
theorem sscanfD_natDecChars_pos (m : Nat) : sscanfD ⟨natDecChars m⟩ = some (m : Int) := by
  obtain ⟨c, cs, hcons⟩ : ∃ c cs, natDecChars m = c :: cs := by
    cases hL : natDecChars m with
    | nil => exact absurd hL (natDecChars_ne_nil m)
    | cons c cs => exact ⟨c, cs, rfl⟩
  have hc : isDigitChar c = true := by
    apply natDecChars_all_digits m
    rw [hcons]; exact List.mem_cons_self c cs
  have hns := isDigitChar_not_space hc
  have hsign := isDigitChar_not_sign hc
  simp only [sscanfD]
  rw [hcons]
  simp only [List.dropWhile_cons, hns]
  simp only [Bool.false_eq_true, if_false, ite_false]
  simp only [sscanfDChars, hsign.1, hsign.2, hc]
  simp only [Bool.false_eq_true, if_false, if_true, ite_true, ite_false]
  rw [← hcons, takeDigitsVal_natDecChars m]

/-- The sign-prefixed rendering of a natural scans back to its negation:
the signed core of the round trip. -/
theorem sscanfD_natDecChars_neg (m : Nat) :
    sscanfD ⟨Char.ofNat 45 :: natDecChars m⟩ = some (-(m : Int)) := by
  obtain ⟨c, cs, hcons⟩ : ∃ c cs, natDecChars m = c :: cs := by
    cases hL : natDecChars m with
    | nil => exact absurd hL (natDecChars_ne_nil m)
    | cons c cs => exact ⟨c, cs, rfl⟩
  have hc : isDigitChar c = true := by
    apply natDecChars_all_digits m
    rw [hcons]; exact List.mem_cons_self c cs
  simp only [sscanfD]
  have h45 : ((Char.ofNat 45 == Char.ofNat 32 || Char.ofNat 45 == Char.ofNat 9 ||
      Char.ofNat 45 == Char.ofNat 10) = false) := by decide
  simp only [List.dropWhile_cons, h45]
  simp only [Bool.false_eq_true, if_false, ite_false]
  simp only [sscanfDChars]
  have h4545 : (Char.ofNat 45 == Char.ofNat 45) = true := by decide
  simp only [h4545, if_true, ite_true]
  rw [hcons]
  simp only [hc, if_true, ite_true]
  rw [← hcons, takeDigitsVal_natDecChars m]

/-- fmt.Sscanf("%d") inverts fmt.Sprintf("%d") on every integer: the
decimal string Create writes to state parses back to the same id. -/
theorem sscanfD_sprintfD (n : Int) : sscanfD (sprintfD n) = some n := by
  by_cases hn : n < 0
  · have h2 : sprintfD n = ⟨Char.ofNat 45 :: natDecChars n.natAbs⟩ := by
      simp [sprintfD, hn]
    rw [h2, sscanfD_natDecChars_neg]
    have hcast : -((n.natAbs : Nat) : Int) = n := by omega
    rw [hcast]
  · have h2 : sprintfD n = ⟨natDecChars n.toNat⟩ := by simp [sprintfD, hn]
    rw [h2, sscanfD_natDecChars_pos]
    have hcast : ((n.toNat : Nat) : Int) = n := Int.toNat_of_nonneg (by omega)
    rw [hcast]

/-! ### Claim theorems -/

/-- Claim C2 (code bug): when the backend project update fails and, as a
failed Go call conventionally does, reports a nil project alongside its
error, ProjectResource.Update dereferences that nil project for the id of
the compensating delete and panics instead of only surfacing the
diagnostic: evaluated here at a plan with id "p1" and a non-null name
against a backend whose update call fails with no project object. -/
theorem claim_C2_code_bug :
    (ProjectResource.Update updateFailClient projUpdatePlan "host").panicked = true ∧
    (ProjectResource.Update updateFailClient projUpdatePlan "host").diags =
      [Diag.err "Client Error" "update failed"] := by
  constructor <;> rfl

/-- Claim C3 (confirmed): SanityProvider.Configure resolves the token as
configured value, then SANITY_TOKEN, then error.  An unknown token warns
and builds no client; a null token falls back to the environment; an
empty resolved token is the token-empty error with no client; otherwise
the client built from the resolved token is published as both resource
and data-source data. -/
theorem claim_C3 (config : SanityProviderModel) (envToken : String) :
    (config.Token.Unknown = true →
      SanityProvider.Configure config envToken =
        { diags := [Diag.warn "Unable to create client" "Cannot use unknown value as token"],
          DataSourceData := none, ResourceData := none })
    ∧ (config.Token.Unknown = false →
        (if config.Token.Null then envToken else config.Token.Value) = "" →
        SanityProvider.Configure config envToken =
          { diags := [Diag.err "Unable to find token" "Token cannot be an empty string"],
            DataSourceData := none, ResourceData := none })
    ∧ (config.Token.Unknown = false →
        (if config.Token.Null then envToken else config.Token.Value) ≠ "" →
        SanityProvider.Configure config envToken =
          { diags := [],
            DataSourceData := some ⟨if config.Token.Null then envToken else config.Token.Value⟩,
            ResourceData := some ⟨if config.Token.Null then envToken else config.Token.Value⟩ }) := by
  refine ⟨fun hu => ?_, fun hu he => ?_, fun hu he => ?_⟩
  · simp [SanityProvider.Configure, hu]
  · simp [SanityProvider.Configure, hu, he]
  · simp [SanityProvider.Configure, hu, he]

/-- Claim C3 witness: with no configured token and SANITY_TOKEN=abc123
configuration succeeds with effective token abc123; with neither source
it fails with the token-empty error. -/
theorem claim_C3_witness :
    SanityProvider.Configure nullTokenConfig "abc123" =
      { diags := [], DataSourceData := some ⟨"abc123"⟩, ResourceData := some ⟨"abc123"⟩ } ∧
    SanityProvider.Configure nullTokenConfig "" =
      { diags := [Diag.err "Unable to find token" "Token cannot be an empty string"],
        DataSourceData := none, ResourceData := none } :=
  ⟨((claim_C3 nullTokenConfig "abc123").2.2 rfl (by decide)),
   ((claim_C3 nullTokenConfig "").2.1 rfl (by decide))⟩

/-- Claim C5 counterexample: the diagnostic CORSOriginResource.Update
actually adds does not carry the text claimed ("Update is not supported
on cors entry"): the source writes "Update is not supported on CORS
entry". -/
theorem claim_C5_counterexample :
    (CORSOriginResource.Update corsPlanBase).diags.map Diag.detail ≠
      ["Update is not supported on cors entry"] := by
  decide

/-- Claim C5 (corrected): every update of the CORS origin or dataset
resource, whatever the plan, adds exactly one error diagnostic and issues
no backend call; the CORS origin text is "Update is not supported on CORS
entry" (capital CORS) and the dataset text is "Update is not supported on
dataset". -/
theorem claim_C5_amended (planC : CORSOriginResourceModel) (planD : DatasetResourceModel) :
    (CORSOriginResource.Update planC).diags =
      [Diag.err "Provider Error" "Update is not supported on CORS entry"] ∧
    (CORSOriginResource.Update planC).calls = [] ∧
    (DatasetResource.Update planD).diags =
      [Diag.err "Provider Error" "Update is not supported on dataset"] ∧
    (DatasetResource.Update planD).calls = [] :=
  ⟨rfl, rfl, rfl, rfl⟩

/-- Claim C8 (confirmed): DatasetResource.ImportState splits the
identifier on "/"; exactly two parts set project to the first and name to
the second, any other shape is the fatal input-format error and sets
nothing. -/
theorem claim_C8 (id : String) :
    ((importParts id).length = 2 →
      DatasetResource.ImportState id =
        { diags := [],
          attrs := [("project", (importParts id).getD 0 ""),
                    ("name", (importParts id).getD 1 "")] })
    ∧ ((importParts id).length ≠ 2 →
      DatasetResource.ImportState id =
        { diags := [Diag.err "Input Error"
            "The import identifier for a dataset should be in the form project-id/dataset-name"],
          attrs := [] }) := by
  constructor <;> intro h <;> simp [DatasetResource.ImportState, h]

/-- Claim C8 witness: importing "proj123/production" sets
project=proj123 and name=production; importing "proj123" fails with the
format error. -/
theorem claim_C8_witness :
    DatasetResource.ImportState "proj123/production" =
      { diags := [], attrs := [("project", "proj123"), ("name", "production")] } ∧
    DatasetResource.ImportState "proj123" =
      { diags := [Diag.err "Input Error"
          "The import identifier for a dataset should be in the form project-id/dataset-name"],
        attrs := [] } := by
  constructor
  · have h := (claim_C8 "proj123/production").1 (by decide)
    rw [h]
    decide
  · exact (claim_C8 "proj123").2 (by decide)

/-- Claim C9 (confirmed): a CORS origin state produced by a successful
Create holds the entry id rendered by sprintfD, and the decimal scan
performed by Read and Delete (sscanfD) recovers exactly that id — so the
scan-failure branch is unreachable on Create-produced state. -/
theorem claim_C9 (c : Client) (plan : CORSOriginResourceModel) (entry : CORSEntry)
    (h : c.createCORSEntry plan.Project.Value (corsCreateReq plan) = (some entry, none)) :
    ∃ st, (CORSOriginResource.Create c plan).state = some st ∧
      st.Id.Value = sprintfD entry.Id ∧
      sscanfD st.Id.Value = some entry.Id := by
  refine ⟨{ plan with
      Id := TString.val (sprintfD entry.Id)
      AllowCredentials := TBool.val entry.AllowCredentials }, ?_, rfl, ?_⟩
  · simp [CORSOriginResource.Create, h]
  · exact sscanfD_sprintfD entry.Id

/-- Claim C9 witness: a backend-assigned id 123456789 round-trips through
the state string back to 123456789. -/
theorem claim_C9_witness :
    ∃ st, (CORSOriginResource.Create corsCreateClient corsPlanBase).state = some st ∧
      st.Id.Value = sprintfD 123456789 ∧
      sscanfD st.Id.Value = some 123456789 :=
  claim_C9 corsCreateClient corsPlanBase
    { Id := 123456789, Origin := "https://example.com", AllowCredentials := true } (by decide)

/-- Claim C10 (confirmed): when the backend dataset create succeeds,
DatasetResource.Create writes the planned model to state verbatim — every
field of the state equals the planned field, whatever dataset object the
backend reply carried. -/
theorem claim_C10 (c : Client) (data st : DatasetResourceModel)
    (h : (DatasetResource.Create c data).state = some st) :
    st = data ∧ st.Project = data.Project ∧ st.Name = data.Name ∧ st.AclMode = data.AclMode := by
  have hst : st = data := by
    unfold DatasetResource.Create at h
    rcases hcd : c.createDataset data.Project.Value
        { Name := data.Name.Value, AclMode := data.AclMode.Value } with ⟨v, err⟩
    simp only [hcd] at h
    cases err with
    | none => simp at h; exact h.symm
    | some e => simp at h
  exact ⟨hst, by rw [hst], by rw [hst], by rw [hst]⟩

/-- Claim C6 (confirmed): CORSOriginResource.Read with non-null stored id
and project, against a successful listing: a scan failure of the stored
id is a client error; otherwise the listed entries are scanned linearly
for the parsed numeric id — a match refreshes origin and
allow-credentials from the matched entry, no match is the fatal "cors
entry not found" error. -/
theorem claim_C6 (c : Client) (data : CORSOriginResourceModel) (entries : List CORSEntry)
    (hid : data.Id.Null = false) (hpr : data.Project.Null = false)
    (hl : c.listCORSEntries data.Project.Value = (entries, none)) :
    (sscanfD data.Id.Value = none →
      (CORSOriginResource.Read c data).diags = [Diag.err "Client Error" sscanfErrText] ∧
      (CORSOriginResource.Read c data).state = none)
    ∧ (∀ k : Int, sscanfD data.Id.Value = some k →
      (entries.find? (fun en => en.Id == k) = none →
        (CORSOriginResource.Read c data).diags =
          [Diag.err "cors entry not found" "cors entry not found"] ∧
        (CORSOriginResource.Read c data).state = none)
      ∧ (∀ entry, entries.find? (fun en => en.Id == k) = some entry →
        (CORSOriginResource.Read c data).diags = [] ∧
        (CORSOriginResource.Read c data).state = some { data with
          AllowCredentials := TBool.val entry.AllowCredentials,
          Origin := TString.val entry.Origin })) := by
  refine ⟨fun hs => ?_, fun k hs => ⟨fun hf => ?_, fun entry hf => ?_⟩⟩
  · simp [CORSOriginResource.Read, hid, hpr, hl, hs]
  · simp [CORSOriginResource.Read, hid, hpr, hl, hs, hf]
  · simp [CORSOriginResource.Read, hid, hpr, hl, hs, hf]

/-- Claim C6 witness: against entries with ids 1 and 2 (origins https://a
and https://b), stored id "2" refreshes origin to https://b and stored id
"99" fails with the not-found error. -/
theorem claim_C6_witness :
    (CORSOriginResource.Read corsListClient corsState2).state =
      some { corsState2 with
        AllowCredentials := TBool.val true,
        Origin := TString.val "https://b" } ∧
    (CORSOriginResource.Read corsListClient corsState99).diags =
      [Diag.err "cors entry not found" "cors entry not found"] :=
  ⟨(((claim_C6 corsListClient corsState2 [entry1, entry2] rfl rfl
        (by decide)).2 2 (by decide)).2 entry2 (by decide)).2,
   (((claim_C6 corsListClient corsState99 [entry1, entry2] rfl rfl
        (by decide)).2 99 (by decide)).1 (by decide)).1⟩

/-- Claim C7 counterexample: DatasetResource.Read with a null stored
project performs the backend dataset-list call (with the null value's
empty project id) and raises no "is null" diagnostic at all — here the
read even succeeds with an empty diagnostic list. -/
theorem claim_C7_counterexample :
    dsNullProject.Project.Null = true ∧
    (DatasetResource.Read datasetListClient dsNullProject).calls = [Call.listDatasets ""] ∧
    (DatasetResource.Read datasetListClient dsNullProject).diags = [] := by
  refine ⟨rfl, ?_, ?_⟩ <;> decide

/-- Claim C7 (corrected): an absent required identifier yields the fatal
"X is null" diagnostic before any backend call for project read, update
and delete, CORS-origin read and delete, and dataset delete; the
CORS-origin and dataset updates fail unconditionally with the
unsupported-update diagnostic, likewise before any backend call; dataset
read performs no such check (see the counterexample). -/
theorem claim_C7_amended (c : Client) :
    (∀ d : ProjectResourceModel, d.Id.Null = true →
      ProjectResource.Read c d =
        { diags := [Diag.err "Project id is null" "Project id is null"],
          calls := [], state := none })
    ∧ (∀ (d : ProjectResourceModel) (sh : String), d.Id.Null = true →
      ProjectResource.Update c d sh =
        { diags := [Diag.err "Project id is null" "Project id is null"],
          calls := [], state := none })
    ∧ (∀ d : ProjectResourceModel, d.Id.Null = true →
      ProjectResource.Delete c d =
        { diags := [Diag.err "Project id is null" "Project id is null"],
          calls := [], state := none })
    ∧ (∀ d : CORSOriginResourceModel, d.Id.Null = true →
      CORSOriginResource.Read c d =
        { diags := [Diag.err "Entry id is null" "Entry id is null"],
          calls := [], state := none })
    ∧ (∀ d : CORSOriginResourceModel, d.Id.Null = false → d.Project.Null = true →
      CORSOriginResource.Read c d =
        { diags := [Diag.err "Project is null" "Project is null"],
          calls := [], state := none })
    ∧ (∀ d : CORSOriginResourceModel, d.Id.Null = true →
      CORSOriginResource.Delete c d =
        { diags := [Diag.err "Entry id is null" "Entry id is null"],
          calls := [], state := none })
    ∧ (∀ d : CORSOriginResourceModel, d.Id.Null = false → d.Project.Null = true →
      CORSOriginResource.Delete c d =
        { diags := [Diag.err "Project is null" "Project is null"],
          calls := [], state := none })
    ∧ (∀ d : DatasetResourceModel, d.Name.Null = true →
      DatasetResource.Delete c d =
        { diags := [Diag.err "Name is null" "Name is null"],
          calls := [], state := none })
    ∧ (∀ d : DatasetResourceModel, d.Name.Null = false → d.Project.Null = true →
      DatasetResource.Delete c d =
        { diags := [Diag.err "Project is null" "Project is null"],
          calls := [], state := none })
    ∧ (∀ plan : CORSOriginResourceModel,
      (CORSOriginResource.Update plan).calls = [] ∧
      (CORSOriginResource.Update plan).diags =
        [Diag.err "Provider Error" "Update is not supported on CORS entry"])
    ∧ (∀ plan : DatasetResourceModel,
      (DatasetResource.Update plan).calls = [] ∧
      (DatasetResource.Update plan).diags =
        [Diag.err "Provider Error" "Update is not supported on dataset"]) := by
  refine ⟨fun d h => ?_, fun d sh h => ?_, fun d h => ?_, fun d h => ?_,
    fun d h1 h2 => ?_, fun d h => ?_, fun d h1 h2 => ?_, fun d h => ?_,
    fun d h1 h2 => ?_, fun plan => ⟨rfl, rfl⟩, fun plan => ⟨rfl, rfl⟩⟩
  · simp [ProjectResource.Read, h]
  · simp [ProjectResource.Update, h]
  · simp [ProjectResource.Delete, h]
  · simp [CORSOriginResource.Read, h]
  · simp [CORSOriginResource.Read, h1, h2]
  · simp [CORSOriginResource.Delete, h]
  · simp [CORSOriginResource.Delete, h1, h2]
  · simp [DatasetResource.Delete, h]
  · simp [DatasetResource.Delete, h1, h2]

/-- Claim C7 witness: the null guards at concrete all-null states. -/
theorem claim_C7_witness :
    ProjectResource.Read constClient projNullModel =
      { diags := [Diag.err "Project id is null" "Project id is null"],
        calls := [], state := none } ∧
    CORSOriginResource.Delete constClient corsNullModel =
      { diags := [Diag.err "Entry id is null" "Entry id is null"],
        calls := [], state := none } ∧
    DatasetResource.Delete constClient dsNullModel =
      { diags := [Diag.err "Name is null" "Name is null"],
        calls := [], state := none } :=
  ⟨(claim_C7_amended constClient).1 projNullModel rfl,
   (claim_C7_amended constClient).2.2.2.2.2.1 corsNullModel rfl,
   (claim_C7_amended constClient).2.2.2.2.2.2.2.1 dsNullModel rfl⟩

/-- When every per-entry delete succeeds the purge loop deletes every
listed entry, in order, and reports no error. -/
theorem purgeCORSEntries_ok (c : Client) (pid : String) :
    ∀ entries : List CORSEntry, (∀ en ∈ entries, c.deleteCORSEntry pid en.Id = none) →
      purgeCORSEntries c pid entries =
        (entries.map (fun en => Call.deleteCORSEntry pid en.Id), none) := by
  intro entries
  induction entries with
  | nil => intro _; rfl
  | cons en rest ih =>
    intro h
    have h1 : c.deleteCORSEntry pid en.Id = none := h en (List.mem_cons_self en rest)
    simp [purgeCORSEntries, h1, ih (fun x hx => h x (List.mem_cons_of_mem en hx))]

/-- Claim C1 counterexample: when the post-create CORS listing itself
fails, ProjectResource.Create surfaces the error but issues no
compensating project delete — contradicting the claim that every failure
of the purge step triggers one. -/
theorem claim_C1_counterexample :
    (ProjectResource.Create listFailClient projPlanBase).diags =
      [Diag.err "Client Error" "list failed"] ∧
    Call.deleteProject "p1" ∉ (ProjectResource.Create listFailClient projPlanBase).calls := by
  decide

/-- Claim C1 (corrected): after a successful backend create,
ProjectResource.Create lists the new project's auto-provisioned CORS
entries and deletes each of them; a failure of any per-entry delete adds
the error and issues a best-effort compensating project delete, but a
failure of the list call surfaces the error without any compensating
delete. -/
theorem claim_C1_amended (c : Client) (data : ProjectResourceModel) (proj : Project)
    (hc : c.createProject
        { DisplayName := data.Name.Value, OrganizationId := data.Organization.Value } =
      (some proj, none)) :
    (∀ entries e, c.listCORSEntries proj.Id = (entries, some e) →
      (ProjectResource.Create c data).diags = [Diag.err "Client Error" e] ∧
      Call.deleteProject proj.Id ∉ (ProjectResource.Create c data).calls)
    ∧ (∀ entries e, c.listCORSEntries proj.Id = (entries, none) →
        (purgeCORSEntries c proj.Id entries).2 = some e →
      (ProjectResource.Create c data).diags = [Diag.err "Client Error" e] ∧
      Call.deleteProject proj.Id ∈ (ProjectResource.Create c data).calls)
    ∧ (∀ entries, c.listCORSEntries proj.Id = (entries, none) →
        (∀ en ∈ entries, c.deleteCORSEntry proj.Id en.Id = none) →
        ∀ en ∈ entries,
          Call.deleteCORSEntry proj.Id en.Id ∈ (ProjectResource.Create c data).calls) := by
  refine ⟨fun entries e hl => ?_, fun entries e hl hp => ?_, fun entries hl hdel en hen => ?_⟩
  · constructor <;> simp [ProjectResource.Create, hc, hl]
  · constructor <;> simp [ProjectResource.Create, hc, hl, hp]
  · have hpurge := purgeCORSEntries_ok c proj.Id entries hdel
    have hmem : Call.deleteCORSEntry proj.Id en.Id ∈
        entries.map (fun x => Call.deleteCORSEntry proj.Id x.Id) :=
      List.mem_map.mpr ⟨en, hen, rfl⟩
    rcases hup : c.updateProject proj.Id (createUpdateReq data) with ⟨v, err⟩
    by_cases hru : (!data.StudioHost.Null || !data.ExternalStudioHost.Null ||
        !data.Color.Null || !data.IsDisabledByUser.Null ||
        !data.ActivityFeedEnabled.Null) = true
    · cases v <;> cases err <;>
        simp [ProjectResource.Create, hc, hl, hpurge, hru, hup, hmem]
    · simp [ProjectResource.Create, hc, hl, hpurge,
        Bool.not_eq_true _ ▸ hru, hmem]

/-- ProjectResource.Update issues at most one backend update call, always
with the request updateUpdateReq builds, optionally followed by one
compensating project delete. -/
theorem projectUpdate_calls_shape (c : Client) (data : ProjectResourceModel) (sh : String) :
    (ProjectResource.Update c data sh).calls = [] ∨
    (ProjectResource.Update c data sh).calls =
      [Call.updateProject data.Id.Value (updateUpdateReq data sh)] ∨
    ∃ p, (ProjectResource.Update c data sh).calls =
      [Call.updateProject data.Id.Value (updateUpdateReq data sh), Call.deleteProject p] := by
  by_cases hid : data.Id.Null = true
  · left; simp [ProjectResource.Update, hid]
  · have hid' : data.Id.Null = false := by
      cases h : data.Id.Null
      · rfl
      · exact absurd h hid
    by_cases hru : (!data.Name.Null || (!data.StudioHost.Null && sh == "") ||
        !data.ExternalStudioHost.Null || !data.Color.Null ||
        !data.IsDisabledByUser.Null || !data.ActivityFeedEnabled.Null) = true
    · rcases hup : c.updateProject data.Id.Value (updateUpdateReq data sh) with ⟨v, err⟩
      cases v with
      | none =>
        cases err with
        | none => right; left; simp [ProjectResource.Update, hid', hru, hup]
        | some e => right; left; simp [ProjectResource.Update, hid', hru, hup]
      | some p =>
        cases err with
        | none => right; left; simp [ProjectResource.Update, hid', hru, hup]
        | some e =>
          right; right
          exact ⟨p.Id, by simp [ProjectResource.Update, hid', hru, hup]⟩
    · left
      simp [ProjectResource.Update, hid', Bool.not_eq_true _ ▸ hru]

/-- Claim C4 (confirmed): in ProjectResource.Update the studio-host field
is included in the backend update request exactly when the prior state's
studio host is the empty string and the plan's studio host is non-null;
with a non-empty prior studio host every issued update request has the
field unassigned, whatever the planned value. -/
theorem claim_C4 (c : Client) (data : ProjectResourceModel) (studioHost : String) :
    ((studioHost = "" ∧ data.StudioHost.Null = false ∧ data.Id.Null = false) →
      Call.updateProject data.Id.Value (updateUpdateReq data studioHost) ∈
        (ProjectResource.Update c data studioHost).calls ∧
      (updateUpdateReq data studioHost).StudioHost = some data.StudioHost.Value)
    ∧ ((studioHost ≠ "" ∨ data.StudioHost.Null = true) →
      ∀ pid req, Call.updateProject pid req ∈ (ProjectResource.Update c data studioHost).calls →
        req.StudioHost = none) := by
  constructor
  · rintro ⟨hsh, hnull, hid⟩
    subst hsh
    refine ⟨?_, by simp [updateUpdateReq, hnull]⟩
    rcases hup : c.updateProject data.Id.Value (updateUpdateReq data "") with ⟨v, err⟩
    cases v <;> cases err <;> simp [ProjectResource.Update, hid, hnull, hup]
  · intro hside pid req hmem
    have hnone : (updateUpdateReq data studioHost).StudioHost = none := by
      rcases hside with h | h
      · simp [updateUpdateReq, h]
      · simp [updateUpdateReq, h]
    rcases projectUpdate_calls_shape c data studioHost with hcalls | hcalls | ⟨p, hcalls⟩
    · rw [hcalls] at hmem
      simp at hmem
    · rw [hcalls] at hmem
      simp only [List.mem_singleton] at hmem
      obtain ⟨h1, h2⟩ := Call.updateProject.inj hmem
      rw [h2]
      exact hnone
    · rw [hcalls] at hmem
      simp only [List.mem_cons, List.not_mem_nil, or_false] at hmem
      rcases hmem with hmem | hmem
      · obtain ⟨h1, h2⟩ := Call.updateProject.inj hmem
        rw [h2]
        exact hnone
      · simp at hmem

/-- Claim C4 witness: prior studio host empty and plan studio host
my-cool-blog — the issued update request carries the studio-host field. -/
theorem claim_C4_witness :
    Call.updateProject "p1" (updateUpdateReq projStudioPlan "") ∈
      (ProjectResource.Update constClient projStudioPlan "").calls ∧
    (updateUpdateReq projStudioPlan "").StudioHost = some "my-cool-blog" :=
  (claim_C4 constClient projStudioPlan "").1 ⟨rfl, rfl, rfl⟩

/-- Claim C1 witness: a failing per-entry delete (entry id 1) surfaces
the error and issues the compensating delete of project p1. -/
theorem claim_C1_witness :
    (ProjectResource.Create purgeFailClient projPlanBase).diags =
      [Diag.err "Client Error" "entry delete failed"] ∧
    Call.deleteProject "p1" ∈ (ProjectResource.Create purgeFailClient projPlanBase).calls :=
  (claim_C1_amended purgeFailClient projPlanBase proj1 (by decide)).2.1
    [entry1] "entry delete failed" (by decide) (by decide)

/-- Claim C10 witness: a successful create against a backend that reports
a dataset with a different acl mode still stores the plan verbatim. -/
theorem claim_C10_witness :
    dsPlanBase = dsPlanBase ∧ dsPlanBase.Project = dsPlanBase.Project ∧
      dsPlanBase.Name = dsPlanBase.Name ∧ dsPlanBase.AclMode = dsPlanBase.AclMode :=
  claim_C10 datasetCreateClient dsPlanBase dsPlanBase (by decide)

